import Mathlib

/-!
Verification development for the emergency-response orchestration core
(`src/agents/orchestrator.py` and the four agent modules it coordinates).

The Python code is embedded shallowly:

* Python dicts with a fixed key set become Lean structures; a key that is
  sometimes absent becomes an `Option` field (`none` = key missing), so that
  `d.get(k)` is the field value and `d[k]` on a missing key is an explicit
  `KeyError` path.
* Python floats are modelled as `ℚ` (all numeric literals in the code are
  exact decimals, and no claim depends on rounding).
* Wall-clock data (timestamps, response times, durations) is omitted: no
  claim mentions it, and it is the only non-deterministic input besides the
  sentiment library, the random phrase picker and responder failures, which
  are supplied by explicit oracle parameters.
* `try/except` becomes `Except`; the orchestrator boundary handler is the
  `match` in `Orchestrator.process_message_core`.
-/

namespace Emergency

/-- ASCII lowercase of one character. -/
def lowerChar (c : Char) : Char :=
  if c.toNat ≥ 65 && c.toNat ≤ 90 then Char.ofNat (c.toNat + 32) else c

/-- Python `str.lower()` (the repository only lowercases ASCII text). -/
def pyLower (s : String) : String := String.mk (s.toList.map lowerChar)

/-- `listPre n h`: the character list `n` is a prefix of `h`. -/
def listPre : List Char → List Char → Bool
  | [], _ => true
  | _ :: _, [] => false
  | a :: as, b :: bs => a == b && listPre as bs

/-- `listSub n h`: the character list `n` occurs contiguously inside `h`. -/
def listSub (needle : List Char) : List Char → Bool
  | [] => listPre needle []
  | c :: t => listPre needle (c :: t) || listSub needle t

/-- Python `needle in hay` substring test. -/
def pyIn (needle hay : String) : Bool := listSub needle.toList hay.toList

/-- Python truthiness of an optional string value (`None` and `""` are falsy). -/
def optStrTruthy : Option String → Bool
  | none => false
  | some s => !s.isEmpty

/-- Python truthiness of an optional number (`None` and `0` are falsy). -/
def optRatTruthy : Option ℚ → Bool
  | none => false
  | some q => q != mkRat 0 1

/-- Python truthiness of an optional bool (`None` is falsy). -/
def optBoolTruthy : Option Bool → Bool
  | none => false
  | some b => b

/-- Python truthiness of an optional list (`None` and `[]` are falsy). -/
def optListTruthy : Option (List String) → Bool
  | none => false
  | some l => !l.isEmpty

/-- Count maximal space-free runs; `inWord` records whether the previous
character was part of a word. -/
def wordCountAux : List Char → Bool → Nat
  | [], _ => 0
  | c :: rest, inWord =>
    if c == ' ' then wordCountAux rest false
    else (if inWord then 0 else 1) + wordCountAux rest true

/-- Python `len(message.split())`: number of whitespace-separated words (the
repository\x27s messages use plain spaces). -/
def wordCount (s : String) : Nat := wordCountAux s.toList false

/-- Metadata dictionary attached to a single responder / safety / error outcome
(`metadata` values produced in the agent modules and the orchestrator).
Every field is optional: `none` models an absent key.  `response_time` and
`timestamp` keys are omitted (wall clock). -/
structure AgentMetadata where
  blocked : Option Bool := none
  safety_trigger : Option Bool := none
  trigger_keywords : Option (List String) := none
  loop_breaker : Option Bool := none
  error : Option String := none
  emergency_type : Option String := none
  critical_keywords : Option (List String) := none
  triage_complete : Option Bool := none
  questions_asked : Option (List String) := none
  dispatch_attempted : Option Bool := none
  dispatch_successful : Option Bool := none
  reference_id : Option String := none
  service_type : Option String := none
  reason : Option String := none
  sentiment_score : Option ℚ := none
  emotional_state : Option String := none
  empathy_score : Option ℚ := none
  guidance_needed : Option String := none
  guidance_provided : Option Bool := none

/-- Full metadata value: agent-level keys plus the `all_agents` key that
`_combine_agent_responses` adds to the primary outcome.  In the source the
nested dicts are the agents' own metadata dicts (which never contain an
`all_agents` key themselves before the merge), so the nesting is one level
deep; the aliasing of the primary's own dict inside the collection is not
observable through any field read by the orchestrator and is not modelled. -/
structure Metadata extends AgentMetadata where
  all_agents : Option (List (String × AgentMetadata)) := none

/-- A responder/orchestrator outcome dict: `message`, `agent_type`,
`confidence`, `urgency_level`, `metadata`.  `urgency_level` is optional
because the synthetic error dict built in `_process_through_agents` has no
such key.  (The `timestamp` key added by `AgentResponse.to_dict` is wall
clock and omitted.) -/
structure Outcome where
  message : String
  agent_type : String
  confidence : ℚ
  urgency_level : Option String
  metadata : Metadata

/-- One entry of `session["conversation_history"]` (timestamp omitted).
The two response fields are filled in after the merge. -/
structure TurnRecord where
  turn : Nat
  user_message : String
  agent_response : Option String := none
  agent_type : Option String := none

/-- The per-session mutable record built by `start_session`.
`start_time`, `sentiment_scores` (never written anywhere in the code) and
`response_times` (wall clock) are omitted. -/
structure Session where
  session_id : String
  caller_phone : Option String := none
  latitude : Option ℚ := none
  longitude : Option ℚ := none
  address : Option String := none
  turn_number : Nat := 0
  conversation_history : List TurnRecord := []
  questions_asked : List String := []
  urgency_level : String := "unknown"
  emergency_type : String := "unknown"
  critical_keywords : List String := []
  triage_complete : Bool := false
  dispatch_attempted : Bool := false
  dispatch_successful : Bool := false
  empathy_score : ℚ := mkRat 0 1
  agent_activations : List (Nat × List String) := []
  safety_triggers : Nat := 0
  profanity_detected : Bool := false
  loop_breaker_active : Bool := false

/-- Configuration values the orchestrator reads (`src/config/config.py`);
defaults are the `Config` class constants. -/
structure Config where
  SAFETY_KEYWORDS : List String := ["suicide", "self-harm", "overdose"]
  MAX_CONVERSATION_TURNS : Nat := 50
  REAL_DISPATCH_ENABLED : Bool := false

def defaultConfig : Config := {}

/-- Caller info accepted by `start_session`. -/
structure CallerInfo where
  phone : Option String := none
  latitude : Option ℚ := none
  longitude : Option ℚ := none
  address : Option String := none

/-- The fresh session dict allocated by `start_session`. -/
def freshSession (id : String) (info : Option CallerInfo) : Session :=
  { session_id := id
    caller_phone := info.bind (·.phone)
    latitude := info.bind (·.latitude)
    longitude := info.bind (·.longitude)
    address := info.bind (·.address) }

/-- The read-only context dict built once per turn by `_build_context`
plus the inbound message. -/
structure Context where
  session_id : String
  turn_number : Nat
  message : String
  conversation_history : List TurnRecord
  questions_asked : List String
  urgency_level : String
  emergency_type : String
  critical_keywords : List String
  triage_complete : Bool
  empathy_score : ℚ
  address : Option String
  latitude : Option ℚ
  longitude : Option ℚ
  caller_phone : Option String
  /-- `_build_context` never writes a `sentiment_score` key; the empathy
  agent reads it with `context.get("sentiment_score", 0)`.  The field models
  the possibly-present key: through the orchestrator it is always `none`. -/
  sentiment_score : Option ℚ := none

namespace BaseAgent

/-- `BaseAgent.extract_keywords`: keywords from the list occurring in the text. -/
def extract_keywords (text : String) (keyword_list : List String) : List String :=
  keyword_list.filter (fun kw => pyIn (pyLower kw) (pyLower text))

end BaseAgent

namespace TriageAgent

def critical_medical : List String :=
  ["unconscious", "not breathing", "no pulse", "chest pain", "heart attack",
   "stroke", "seizure", "severe bleeding", "choking", "overdose"]

def critical_safety : List String :=
  ["fire", "smoke", "explosion", "gun", "weapon", "assault", "violence",
   "robbery", "break in", "intruder", "domestic violence"]

def high_priority : List String :=
  ["difficulty breathing", "severe pain", "heavy bleeding", "broken bone",
   "car accident", "fall", "burn", "allergic reaction", "pregnancy"]

def medium_priority : List String :=
  ["moderate pain", "minor bleeding", "nausea", "fever", "rash",
   "anxiety", "panic attack", "minor injury"]

/-- The `triage_questions` dict (total: every key used in the code is listed). -/
def triage_questions (category : String) : String :=
  if category == "consciousness" then "Is the person conscious and able to respond?"
  else if category == "breathing" then "Is the person breathing normally?"
  else if category == "bleeding" then "Is there any severe bleeding?"
  else if category == "pain_level" then "On a scale of 1-10, how severe is the pain?"
  else if category == "location" then "What is your exact location?"
  else if category == "age" then "What is the person\x27s approximate age?"
  else if category == "medical_history" then "Any known medical conditions or allergies?"
  else if category == "what_happened" then "Can you briefly describe what happened?"
  else ""

/-- `self.protocol_responses.get(urgency_level, "")`. -/
def protocol_responses (urgency : String) : String :=
  if urgency == "critical" then "This is a critical emergency. Emergency responders are being dispatched immediately."
  else if urgency == "high" then "This requires urgent medical attention. Help is on the way."
  else if urgency == "medium" then "Medical assistance is needed. Emergency services will respond promptly."
  else if urgency == "low" then "We\x27ll send appropriate help. Please stay on the line."
  else ""

/-- `_assess_urgency(message) -> (urgency_level, emergency_type)`.  The
keyword tables are already lowercase, so the code tests `kw in message_lower`
without lowering `kw`. -/
def assess_urgency (message : String) : String × String :=
  let message_lower := pyLower message
  let critical_medical_found := critical_medical.filter (fun kw => pyIn kw message_lower)
  if !critical_medical_found.isEmpty then ("critical", "medical")
  else
    let critical_safety_found := critical_safety.filter (fun kw => pyIn kw message_lower)
    if !critical_safety_found.isEmpty then ("critical", "safety")
    else
      let high_priority_found := high_priority.filter (fun kw => pyIn kw message_lower)
      if !high_priority_found.isEmpty then
        -- `any(kw in ["breathing","pain","bleeding","accident"] for kw in ...)`
        -- is exact list membership of the found keyword, not substring
        let emergency_type :=
          if high_priority_found.any (fun kw => ["breathing", "pain", "bleeding", "accident"].contains kw)
          then "medical" else "safety"
        ("high", emergency_type)
      else
        let medium_priority_found := medium_priority.filter (fun kw => pyIn kw message_lower)
        if !medium_priority_found.isEmpty then ("medium", "medical")
        else if ["police", "crime", "theft"].any (fun w => pyIn w message_lower) then ("medium", "police")
        else if ["fire", "smoke"].any (fun w => pyIn w message_lower) then ("high", "fire")
        else ("unknown", "unknown")

/-- `_extract_critical_keywords`. -/
def extract_critical_keywords (message : String) : List String :=
  BaseAgent.extract_keywords message (critical_medical ++ critical_safety ++ high_priority)

/-- `_get_next_critical_question`. -/
def get_next_critical_question (urgency_level emergency_type : String)
    (questions_asked : List String) (message : String) : String :=
  let message_lower := pyLower message
  if urgency_level == "critical" && !questions_asked.contains "consciousness" &&
      !(["conscious", "awake", "responding"].any (fun w => pyIn w message_lower)) then
    triage_questions "consciousness"
  else if urgency_level == "critical" && !questions_asked.contains "breathing" &&
      !(["breathing", "breath", "air"].any (fun w => pyIn w message_lower)) then
    triage_questions "breathing"
  else if urgency_level == "critical" && !questions_asked.contains "bleeding" &&
      !(["bleeding", "blood"].any (fun w => pyIn w message_lower)) then
    triage_questions "bleeding"
  else if !questions_asked.contains "location" &&
      !(["address", "street", "location", "where"].any (fun w => pyIn w message_lower)) then
    triage_questions "location"
  else if !questions_asked.contains "what_happened" && wordCount message < 5 then
    triage_questions "what_happened"
  else if emergency_type == "medical" && !questions_asked.contains "age" &&
      !(["old", "age", "year"].any (fun w => pyIn w message_lower)) then
    triage_questions "age"
  else if pyIn "pain" message_lower && !questions_asked.contains "pain_level" then
    triage_questions "pain_level"
  else ""

/-- `_is_triage_complete(context)`. -/
def is_triage_complete (ctx : Context) : Bool :=
  let required_questions :=
    if ctx.urgency_level == "critical"
    then ["location", "what_happened", "consciousness", "breathing"]
    else ["location", "what_happened"]
  required_questions.all (fun q => ctx.questions_asked.contains q)

/-- `_calculate_confidence(context)`. -/
def calculate_confidence (ctx : Context) : ℚ :=
  let questions_asked : ℚ := mkRat ctx.questions_asked.length 1
  let question_bonus := min (questions_asked * mkRat 15 100) (mkRat 6 10)
  let urgency_bonus : ℚ := if ctx.urgency_level ≠ "unknown" then mkRat 2 10 else mkRat 0 1
  min (mkRat 3 10 + question_bonus + urgency_bonus) (mkRat 1 1)

/-- `_generate_triage_response`. -/
def generate_triage_response (message urgency_level emergency_type : String) (ctx : Context) : String :=
  let protocol_message := protocol_responses urgency_level
  let next_question := get_next_critical_question urgency_level emergency_type ctx.questions_asked message
  if next_question ≠ "" then
    if protocol_message ≠ "" then protocol_message ++ " " ++ next_question
    else next_question
  else protocol_message ++ " I have enough information to dispatch appropriate help."

/-- `TriageAgent.process_message`.  `raiseInternal` injects an exception in
the method body, producing the agent\x27s own fallback response. -/
def process_message (raiseInternal : Option String) (message : String) (ctx : Context) : Outcome :=
  match raiseInternal with
  | some e =>
    { message := "I need to gather some important information. Are you or someone else injured?"
      agent_type := "triage"
      confidence := mkRat 1 2
      urgency_level := some "unknown"
      metadata := { error := some e } }
  | none =>
    let (urgency_level, emergency_type) := assess_urgency message
    let critical_keywords := extract_critical_keywords message
    { message := generate_triage_response message urgency_level emergency_type ctx
      agent_type := "triage"
      confidence := calculate_confidence ctx
      urgency_level := some urgency_level
      metadata := { emergency_type := some emergency_type
                    critical_keywords := some critical_keywords
                    triage_complete := some (is_triage_complete ctx)
                    questions_asked := some ctx.questions_asked } }

/-- `TriageAgent.should_activate`. -/
def should_activate (ctx : Context) : Bool :=
  if !is_triage_complete ctx then true
  else if ctx.urgency_level == "unknown" then true
  else false

end TriageAgent

namespace GuidanceAgent

/-- The `guidance_protocols` dict; `none` models a missing key. -/
def guidance_protocols (k : String) : Option String :=
  if k == "unconscious_not_breathing" then some "Place the person on their back on a firm surface. Place the heel of one hand on the center of their chest, and your other hand on top of the first. Keep your elbows straight and position your shoulders directly above your hands. Use your body weight to help you administer compressions at least 2 inches deep and delivered at a rate of at least 100 compressions per minute."
  else if k == "choking" then some "Stand behind the person and slightly to one side. Support their chest with one hand. Give up to five sharp blows between the person’s shoulder blades with the heel of your hand."
  else if k == "bleeding" then some "If bleeding won’t stop after 10 minutes of firm and steady pressure: apply more bandages and dressing without lifting the first one. Keep applying pressure until help arrives."
  else if k == "chest_pain" then some "Have the person sit down and rest. If they have prescribed nitroglycerin, help them take it. Loosen any tight clothing. Stay with them until help arrives."
  else if k == "stroke" then some "Note the time symptoms started. Have the person lie down with head and shoulders slightly raised. Do not give food or water. Monitor breathing."
  else if k == "seizure" then some "Do not restrain the person. Clear the area of hard objects. Place something soft under their head. Time the seizure. Do not put anything in their mouth."
  else if k == "burn" then some "Cool the burn with cool (not cold) running water for 10-20 minutes. Remove any jewelry or tight items before swelling begins. Cover with a clean, dry cloth."
  else if k == "fracture" then some "Do not move the injured area. Immobilize the area above and below the fracture. Apply ice wrapped in a cloth to reduce swelling."
  else if k == "allergic_reaction" then some "If the person has an epinephrine auto-injector (EpiPen), help them use it. Have them lie down with legs elevated. Monitor breathing closely."
  else none

/-- The `keyword_mapping` dict of `_determine_guidance_needed`. -/
def keyword_mapping (k : String) : Option String :=
  if k == "unconscious" then some "unconscious_not_breathing"
  else if k == "not breathing" then some "unconscious_not_breathing"
  else if k == "choking" then some "choking"
  else if k == "bleeding" then some "bleeding"
  else if k == "severe bleeding" then some "bleeding"
  else if k == "chest pain" then some "chest_pain"
  else if k == "heart attack" then some "chest_pain"
  else if k == "stroke" then some "stroke"
  else if k == "seizure" then some "seizure"
  else if k == "burn" then some "burn"
  else if k == "broken bone" then some "fracture"
  else if k == "allergic reaction" then some "allergic_reaction"
  else none

/-- `_determine_guidance_needed`: first mapped critical keyword wins. -/
def determine_guidance_needed (ctx : Context) : String :=
  match ctx.critical_keywords.findSome? (fun kw => keyword_mapping (pyLower kw)) with
  | some g => g
  | none =>
    if ctx.urgency_level == "critical" && ctx.emergency_type == "medical" then
      "unconscious_not_breathing"
    else "unknown"

/-- `_generate_guidance_response`. -/
def generate_guidance_response (guidance_needed : String) (ctx : Context) : String :=
  match guidance_protocols guidance_needed with
  | some protocol_text =>
    "Here\x27s what you need to do right now: " ++ protocol_text ++ " Continue until emergency responders arrive."
  | none =>
    if ctx.urgency_level == "critical" then
      "Keep the person as comfortable as possible. Monitor their breathing and consciousness. Do not move them unless they are in immediate danger. Emergency responders are on their way."
    else if ctx.urgency_level == "high" then
      "Try to keep the person calm and comfortable. Apply basic first aid if you know how. Help is coming soon."
    else
      "Stay with the person and keep them comfortable until help arrives. Monitor their condition and be ready to provide updates to emergency responders."

/-- `GuidanceAgent.process_message`. -/
def process_message (raiseInternal : Option String) (message : String) (ctx : Context) : Outcome :=
  match raiseInternal with
  | some e =>
    { message := "Let me provide some guidance until help arrives. Ensure that everyone stays safe."
      agent_type := "guidance"
      confidence := mkRat 1 2
      urgency_level := some "unknown"
      metadata := { error := some e } }
  | none =>
    let guidance_needed := determine_guidance_needed ctx
    let response_message := generate_guidance_response guidance_needed ctx
    { message := response_message
      agent_type := "guidance"
      confidence := mkRat 95 100
      urgency_level := some ctx.urgency_level
      metadata := { guidance_needed := some guidance_needed
                    guidance_provided := some (pyIn guidance_needed response_message) } }

/-- `GuidanceAgent.should_activate`. -/
def should_activate (ctx : Context) : Bool :=
  if ctx.urgency_level == "critical" || ctx.urgency_level == "high" then true
  else
    -- exact membership of the fixed keywords in the accumulated list
    ["bleeding", "choking", "unconscious", "chest pain", "seizure"].any
      (fun kw => ctx.critical_keywords.contains kw)

end GuidanceAgent

/-- Result of `_send_to_dispatch` / `_mock_dispatch`. -/
structure DispatchResult where
  success : Bool
  service : Option String := none
  priority : Option String := none
  reference_id : Option String := none
  reason : Option String := none

namespace DispatchAgent

/-- External-effect oracle for the dispatch agent: injected exceptions and
the clock/hash-derived mock reference id. -/
structure Oracle where
  raiseInternal : Option String := none
  sendRaise : Option String := none
  mockRaise : Option String := none
  reference_id : String := ""

def service_mapping (k : String) : Option String :=
  if k == "medical" then some "EMS"
  else if k == "fire" then some "Fire Department"
  else if k == "police" then some "Police"
  else if k == "safety" then some "Police"
  else if k == "unknown" then some "EMS"
  else none

def priority_mapping (k : String) : Option String :=
  if k == "critical" then some "Priority 1"
  else if k == "high" then some "Priority 2"
  else if k == "medium" then some "Priority 3"
  else if k == "low" then some "Priority 4"
  else if k == "unknown" then some "Priority 3"
  else none

/-- `_ready_to_dispatch(context)` (Python truthiness on the location data). -/
def ready_to_dispatch (ctx : Context) : Bool :=
  let has_basic_info := ctx.urgency_level != "unknown" && ctx.emergency_type != "unknown"
  let has_location := optStrTruthy ctx.address ||
    (optRatTruthy ctx.latitude && optRatTruthy ctx.longitude) ||
    ctx.questions_asked.contains "location"
  has_basic_info && has_location && ctx.triage_complete

/-- The fields of `_prepare_dispatch_data` consumed downstream (timestamp,
transcript and the always-absent victim/incident context keys omitted). -/
structure DispatchData where
  emergency_id : String
  caller_phone : Option String
  emergency_type : String
  urgency_level : String
  priority : String
  service_needed : String
  address : Option String
  latitude : Option ℚ
  longitude : Option ℚ
  critical_keywords : List String

def prepare_dispatch_data (ctx : Context) : DispatchData :=
  { emergency_id := ctx.session_id
    caller_phone := ctx.caller_phone
    emergency_type := ctx.emergency_type
    urgency_level := ctx.urgency_level
    priority := (priority_mapping ctx.urgency_level).getD "Priority 3"
    service_needed := (service_mapping ctx.emergency_type).getD "EMS"
    address := ctx.address
    latitude := ctx.latitude
    longitude := ctx.longitude
    critical_keywords := ctx.critical_keywords }

/-- `_mock_dispatch`. -/
def mock_dispatch (orc : Oracle) (d : DispatchData) : DispatchResult :=
  match orc.mockRaise with
  | some e => { success := false, reason := some ("Mock dispatch error: " ++ e) }
  | none =>
    { success := true
      service := some d.service_needed
      priority := some d.priority
      reference_id := some orc.reference_id }

/-- `_send_to_dispatch`. -/
def send_to_dispatch (cfg : Config) (orc : Oracle) (d : DispatchData) : DispatchResult :=
  match orc.sendRaise with
  | some e => { success := false, reason := some e }
  | none =>
    if cfg.REAL_DISPATCH_ENABLED then { success := false, reason := some "Real dispatch not configured" }
    else mock_dispatch orc d

/-- `DispatchAgent.process_message`. -/
def process_message (cfg : Config) (orc : Oracle) (message : String) (ctx : Context) : Outcome :=
  match orc.raiseInternal with
  | some e =>
    { message := "Unable to automatically dispatch. Please call 911 directly."
      agent_type := "dispatch"
      confidence := mkRat 1 10
      urgency_level := some "unknown"
      metadata := { error := some e } }
  | none =>
    if !ready_to_dispatch ctx then
      { message := "Still gathering information before dispatch. Please continue providing details."
        agent_type := "dispatch"
        confidence := mkRat 3 10
        urgency_level := some ctx.urgency_level
        metadata := { dispatch_attempted := some false
                      reason := some "Insufficient information" } }
    else
      let dispatch_result := send_to_dispatch cfg orc (prepare_dispatch_data ctx)
      { message :=
          if dispatch_result.success then
            "Emergency services have been notified. " ++ dispatch_result.service.getD "" ++
            " is being dispatched to your location. Reference number: " ++ dispatch_result.reference_id.getD ""
          else "There was an issue contacting emergency services. Please call 911 directly if possible."
        agent_type := "dispatch"
        confidence := if dispatch_result.success then mkRat 95 100 else mkRat 2 10
        urgency_level := some ctx.urgency_level
        metadata := { dispatch_attempted := some true
                      dispatch_successful := some dispatch_result.success
                      reference_id := dispatch_result.reference_id
                      service_type := dispatch_result.service } }

/-- `DispatchAgent.should_activate`. -/
def should_activate (ctx : Context) : Bool :=
  if ready_to_dispatch ctx then true
  else if ctx.urgency_level == "critical" then true
  else false

end DispatchAgent

namespace EmpathyAgent

/-- External-effect oracle for the empathy agent: the sentiment analyzer
output for the inbound message and the `random.choice` draw. -/
structure Oracle where
  compound : ℚ := mkRat 0 1
  pos : ℚ := mkRat 0 1
  neg : ℚ := mkRat 0 1
  choice : Nat := 0
  raiseInternal : Option String := none

def calming_phrases : List String :=
  ["I understand this is scary; I\x27m here to help you.",
   "You\x27re doing great by calling for help. I\x27m going to guide you through this.",
   "I know this is overwhelming, but help is on the way. Stay with me.",
   "Take a deep breath. You\x27ve done the right thing by calling.",
   "I can hear that you\x27re frightened. That\x27s completely normal. Let me help you.",
   "You\x27re being very brave. I\x27m here to support you through this.",
   "I understand you\x27re in a difficult situation. We\x27re going to get through this together.",
   "Stay calm. You\x27re not alone. Help is coming."]

def validation_phrases : List String :=
  ["That must be very frightening for you.",
   "I can understand why you\x27re worried.",
   "Your feelings are completely valid.",
   "Anyone would feel scared in this situation.",
   "You\x27re handling this as well as anyone could.",
   "It\x27s natural to feel overwhelmed right now."]

def reassurance_phrases : List String :=
  ["Help is on the way.",
   "You\x27re going to be okay.",
   "Medical professionals will be there soon.",
   "You\x27ve taken the right step by calling.",
   "Emergency responders are being dispatched now.",
   "Stay strong - help is coming."]

/-- `random.choice` over a non-empty phrase list, driven by the oracle draw. -/
def pick (orc : Oracle) (l : List String) : String := l.getD (orc.choice % l.length) ""

/-- `_classify_emotional_state`. -/
def classify_emotional_state (orc : Oracle) : String :=
  if orc.neg > mkRat 6 10 then "highly_distressed"
  else if orc.neg > mkRat 3 10 then "distressed"
  else if orc.compound < mkRat (-3) 10 then "anxious"
  else if orc.pos > mkRat 1 2 then "calm"
  else "neutral"

/-- `_generate_empathic_response`. -/
def generate_empathic_response (orc : Oracle) (message emotional_state : String)
    (sentiment_score : ℚ) (ctx : Context) : String :=
  let is_first_contact := ctx.turn_number == 0
  let base :=
    if is_first_contact then pick orc calming_phrases
    else if emotional_state == "highly_distressed" || emotional_state == "distressed" then
      pick orc calming_phrases
    else if emotional_state == "anxious" then pick orc validation_phrases
    else pick orc reassurance_phrases
  let base :=
    if pyIn "pain" (pyLower message) then base ++ " I know you\x27re in pain right now."
    else if pyIn "scared" (pyLower message) || pyIn "afraid" (pyLower message) then
      base ++ " It\x27s okay to feel scared."
    else if pyIn "help" (pyLower message) then base ++ " Help is definitely coming."
    else base
  if emotional_state == "highly_distressed" && sentiment_score < mkRat (-6) 10 then
    base ++ " Try to take slow, deep breaths with me."
  else base

/-- `_calculate_empathy_score`. -/
def calculate_empathy_score (orc : Oracle) : ℚ :=
  if orc.neg > mkRat 1 2 then min (mkRat 9 10) (mkRat 1 2 + orc.neg * mkRat 4 10)
  else if orc.neg > mkRat 2 10 then min (mkRat 7 10) (mkRat 3 10 + orc.neg * mkRat 4 10)
  else mkRat 1 2

/-- `EmpathyAgent.process_message`. -/
def process_message (orc : Oracle) (message : String) (ctx : Context) : Outcome :=
  match orc.raiseInternal with
  | some e =>
    { message := "I understand you\x27re in an emergency. Help is on the way. Stay calm."
      agent_type := "empathy"
      confidence := mkRat 1 2
      urgency_level := some "unknown"
      metadata := { error := some e } }
  | none =>
    let sentiment_score := orc.compound
    let emotional_state := classify_emotional_state orc
    let response_message := generate_empathic_response orc message emotional_state sentiment_score ctx
    { message := response_message
      agent_type := "empathy"
      confidence := mkRat 9 10
      urgency_level := some ctx.urgency_level
      metadata := { sentiment_score := some sentiment_score
                    emotional_state := some emotional_state
                    empathy_score := some (calculate_empathy_score orc) } }

/-- `EmpathyAgent.should_activate`. -/
def should_activate (ctx : Context) : Bool :=
  if ctx.turn_number == 0 then true
  else if ctx.sentiment_score.getD (mkRat 0 1) < mkRat (-3) 10 then true
  else
    ["scared", "afraid", "worried", "nervous", "panic"].any
      (fun kw => pyIn kw (pyLower ctx.message))

end EmpathyAgent

namespace Orchestrator

/-- Result of `_perform_safety_checks`.  The non-blocking branch returns the
two-key dict `{"blocked": False}`; each blocking branch returns a full
outcome dict whose keys are `message`/`agent_type`/`confidence`/
`urgency_level`/`metadata` — note that in those dicts `"blocked": True`
lives inside `metadata`, and there is no top-level `"blocked"` key. -/
inductive SafetyCheckResult where
  | notBlocked
  | blockedOutcome (o : Outcome)

/-- The caller's read `safety_check["blocked"]` in `process_message`:
a `KeyError` (`none`) on the blocking dicts, which carry no top-level
`"blocked"` key. -/
def SafetyCheckResult.lookupBlocked : SafetyCheckResult → Option Bool
  | .notBlocked => some false
  | .blockedOutcome _ => none

/-- The fixed self-harm crisis outcome of `_perform_safety_checks`. -/
def selfHarmOutcome (triggers : List String) : Outcome :=
  { message := "I\x27m very concerned about what you\x27ve shared. Please call the National Suicide Prevention Lifeline at 988 or stay on the line while I connect you to emergency services immediately."
    agent_type := "safety"
    confidence := mkRat 1 1
    urgency_level := some "critical"
    metadata := { blocked := some true, safety_trigger := some true,
                  trigger_keywords := some triggers } }

/-- The fixed loop-breaker outcome of `_perform_safety_checks`. -/
def loopBreakerOutcome : Outcome :=
  { message := "We\x27ve been talking for a while. Let me connect you directly with emergency services to ensure you get immediate help."
    agent_type := "safety"
    confidence := mkRat 1 1
    urgency_level := some "high"
    metadata := { blocked := some true, loop_breaker := some true } }

/-- The fixed outcome produced by the `except` handler of `process_message`;
`e` is `str(exception)`. -/
def techDifficultiesOutcome (e : String) : Outcome :=
  { message := "I\x27m experiencing technical difficulties. Please call 911 directly if this is an emergency."
    agent_type := "system"
    confidence := mkRat 1 10
    urgency_level := some "unknown"
    metadata := { error := some e } }

/-- The trigger keywords found in a message
(`[keyword for keyword in self.safety_keywords if keyword.lower() in message_lower]`). -/
def safetyTriggersOf (cfg : Config) (message : String) : List String :=
  cfg.SAFETY_KEYWORDS.filter (fun kw => pyIn (pyLower kw) (pyLower message))

/-- `_perform_safety_checks(message, session)`: returns the check result and
the session as mutated by the check (trigger counter, loop-breaker flag). -/
def perform_safety_checks (cfg : Config) (message : String) (s : Session) :
    SafetyCheckResult × Session :=
  let safety_triggers := safetyTriggersOf cfg message
  let s1 := if safety_triggers.isEmpty then s
            else { s with safety_triggers := s.safety_triggers + 1 }
  if !safety_triggers.isEmpty &&
      (safety_triggers.contains "suicide" || safety_triggers.contains "self-harm") then
    (.blockedOutcome (selfHarmOutcome safety_triggers), s1)
  else if s1.turn_number ≥ cfg.MAX_CONVERSATION_TURNS then
    (.blockedOutcome loopBreakerOutcome, { s1 with loop_breaker_active := true })
  else
    (.notBlocked, s1)

/-- `_build_context(session, current_message)`. -/
def build_context (s : Session) (current_message : String) : Context :=
  { session_id := s.session_id
    turn_number := s.turn_number
    message := current_message
    conversation_history := s.conversation_history
    questions_asked := s.questions_asked
    urgency_level := s.urgency_level
    emergency_type := s.emergency_type
    critical_keywords := s.critical_keywords
    triage_complete := s.triage_complete
    empathy_score := s.empathy_score
    address := s.address
    latitude := s.latitude
    longitude := s.longitude
    caller_phone := s.caller_phone }

/-- `_determine_active_agents(message, session)`: the selected tags plus the
session with the activation logged. -/
def determine_active_agents (message : String) (s : Session) : List String × Session :=
  let context := build_context s message
  let active_agents :=
    (if EmpathyAgent.should_activate context then ["empathy"] else []) ++
    (if TriageAgent.should_activate context then ["triage"] else []) ++
    (if GuidanceAgent.should_activate context then ["guidance"] else []) ++
    (if DispatchAgent.should_activate context then ["dispatch"] else [])
  let active_agents :=
    if active_agents.isEmpty then
      if s.turn_number == 1 then ["empathy", "triage"] else ["triage"]
    else active_agents
  (active_agents,
   { s with agent_activations := s.agent_activations ++ [(s.turn_number, active_agents)] })

/-- The fan-in mapping `agent_responses` (a dict whose keys can only be the
four agent tags; `none` = tag absent). -/
structure AgentResponses where
  empathy : Option Outcome := none
  triage : Option Outcome := none
  guidance : Option Outcome := none
  dispatch : Option Outcome := none

/-- Oracle for one `process_message` call: external-effect inputs of each
agent plus, per agent, an exception escaping the agent coroutine itself and
caught by the `except` inside `_process_through_agents`. -/
structure TurnOracle where
  empathy : EmpathyAgent.Oracle := {}
  empathyRaise : Option String := none
  triageInternal : Option String := none
  triageRaise : Option String := none
  guidanceInternal : Option String := none
  guidanceRaise : Option String := none
  dispatch : DispatchAgent.Oracle := {}
  dispatchRaise : Option String := none

/-- The synthetic per-responder error dict built by the `except` branch of
`_process_through_agents`: no `urgency_level` key. -/
def errorOutcome (agent_name e : String) : Outcome :=
  { message := "Error in " ++ agent_name ++ " processing"
    agent_type := agent_name
    confidence := mkRat 1 10
    urgency_level := none
    metadata := { error := some e } }

/-- `_process_through_agents(message, session, active_agents)`. -/
def process_through_agents (cfg : Config) (orc : TurnOracle) (message : String)
    (s : Session) (active_agents : List String) : AgentResponses :=
  let context := build_context s message
  { empathy :=
      if active_agents.contains "empathy" then
        some (match orc.empathyRaise with
          | some e => errorOutcome "empathy" e
          | none => EmpathyAgent.process_message orc.empathy message context)
      else none
    triage :=
      if active_agents.contains "triage" then
        some (match orc.triageRaise with
          | some e => errorOutcome "triage" e
          | none => TriageAgent.process_message orc.triageInternal message context)
      else none
    guidance :=
      if active_agents.contains "guidance" then
        some (match orc.guidanceRaise with
          | some e => errorOutcome "guidance" e
          | none => GuidanceAgent.process_message orc.guidanceInternal message context)
      else none
    dispatch :=
      if active_agents.contains "dispatch" then
        some (match orc.dispatchRaise with
          | some e => errorOutcome "dispatch" e
          | none => DispatchAgent.process_message cfg orc.dispatch message context)
      else none }

/-- Primary selection of `_combine_agent_responses`: first tag of the
priority order `dispatch > guidance > triage > empathy` present in the
mapping.  (The source\x27s `list(keys)[0]` fallback is unreachable: the four
tags are the only possible keys, so no-priority-tag-present means empty,
which is handled first.) -/
def primaryOf (r : AgentResponses) : Option (String × Outcome) :=
  match r.dispatch with
  | some o => some ("dispatch", o)
  | none => match r.guidance with
    | some o => some ("guidance", o)
    | none => match r.triage with
      | some o => some ("triage", o)
      | none => match r.empathy with
        | some o => some ("empathy", o)
        | none => none

/-- The fixed generic-prompt dict returned for an empty mapping (the source
dict has no `metadata` key; it is returned to the caller unread, modelled as
empty metadata). -/
def genericPromptOutcome : Outcome :=
  { message := "I\x27m here to help. Can you tell me about the emergency?"
    agent_type := "system"
    confidence := mkRat 1 2
    urgency_level := some "unknown"
    metadata := {} }

/-- The namespaced `combined_metadata` collection, in dict insertion order
(the task-append order empathy, triage, guidance, dispatch). -/
def allAgentsMetadata (r : AgentResponses) : List (String × AgentMetadata) :=
  (match r.empathy with | some o => [("empathy_metadata", o.metadata.toAgentMetadata)] | none => []) ++
  (match r.triage with | some o => [("triage_metadata", o.metadata.toAgentMetadata)] | none => []) ++
  (match r.guidance with | some o => [("guidance_metadata", o.metadata.toAgentMetadata)] | none => []) ++
  (match r.dispatch with | some o => [("dispatch_metadata", o.metadata.toAgentMetadata)] | none => [])

/-- `_combine_agent_responses(agent_responses, session)` (the `session`
parameter is unused in the source and omitted here). -/
def combine_agent_responses (r : AgentResponses) : Outcome :=
  match primaryOf r with
  | none => genericPromptOutcome
  | some (primary_agent, primary_response) =>
    let primary_response :=
      if primary_agent != "empathy" then
        match r.empathy with
        | some empathy_response =>
          { primary_response with
            message := empathy_response.message ++ " " ++ primary_response.message }
        | none => primary_response
      else primary_response
    { primary_response with
      metadata := { primary_response.metadata with all_agents := some (allAgentsMetadata r) } }

/-- The triage-metadata folds of `_update_session_state` (after the urgency
write).  `list(set(..))` deduplication has unspecified order in the source;
it is modelled keeping first occurrences. -/
def applyTriageMeta (s : Session) (m : AgentMetadata) : Session :=
  let s := match m.emergency_type with
    | some et => if !et.isEmpty then { s with emergency_type := et } else s
    | none => s
  let s := match m.critical_keywords with
    | some ks => if !ks.isEmpty then
        { s with critical_keywords := (s.critical_keywords ++ ks).eraseDups }
      else s
    | none => s
  if optBoolTruthy m.triage_complete then { s with triage_complete := true } else s

/-- The dispatch-metadata folds of `_update_session_state`. -/
def applyDispatchMeta (s : Session) (r : AgentResponses) : Session :=
  match r.dispatch with
  | none => s
  | some dr =>
    let s := if optBoolTruthy dr.metadata.dispatch_attempted then
        { s with dispatch_attempted := true } else s
    if optBoolTruthy dr.metadata.dispatch_successful then
      { s with dispatch_successful := true } else s

/-- The empathy-score fold of `_update_session_state` (a zero score is falsy
and therefore not written). -/
def applyEmpathyMeta (s : Session) (r : AgentResponses) : Session :=
  match r.empathy with
  | none => s
  | some er =>
    if optRatTruthy er.metadata.empathy_score then
      { s with empathy_score := er.metadata.empathy_score.getD (mkRat 0 1) }
    else s

/-- `_update_session_state(session, agent_responses)`.  When the triage slot
holds the synthetic error dict, `triage_response.get("urgency_level")` is
`None`, the `!= "unknown"` guard passes, and the subsequent
`triage_response["urgency_level"]` read raises `KeyError` — the only
exception this method can raise on the modelled inputs. -/
def update_session_state (s : Session) (r : AgentResponses) : Except String Session :=
  match r.triage with
  | none => .ok (applyEmpathyMeta (applyDispatchMeta s r) r)
  | some tr =>
    match tr.urgency_level with
    | none => .error "\x27urgency_level\x27"
    | some u =>
      let s := if u ≠ "unknown" then { s with urgency_level := u } else s
      .ok (applyEmpathyMeta (applyDispatchMeta (applyTriageMeta s tr.metadata.toAgentMetadata) r) r)

/-- Fill the `agent_response` / `agent_type` fields of the last history
record (`session["conversation_history"][-1][...] = ...`). -/
def setLastResponse (o : Outcome) : List TurnRecord → List TurnRecord
  | [] => []
  | [r] => [{ r with agent_response := some o.message, agent_type := some o.agent_type }]
  | r :: r2 :: rest => r :: setLastResponse o (r2 :: rest)

/-- The `try` block of `process_message` after the session lookup.  An error
value carries `str(exception)` together with the session as already mutated
when the exception was raised (the Python session dict is mutated in place,
so those partial updates survive the `except`). -/
def process_message_attempt (cfg : Config) (orc : TurnOracle) (s : Session)
    (user_message : String) : Except (String × Session) (Outcome × Session) :=
  let checked := perform_safety_checks cfg user_message s
  let s1 := checked.2
  match checked.1 with
  | .blockedOutcome _ =>
    -- `if safety_check["blocked"]:` — the blocking dicts carry `"blocked"`
    -- only inside `metadata`, so this read raises `KeyError("blocked")`
    .error ("\x27blocked\x27", s1)
  | .notBlocked =>
    let s2 := { s1 with
      turn_number := s1.turn_number + 1
      conversation_history := s1.conversation_history ++
        [{ turn := s1.turn_number + 1, user_message := user_message }] }
    let stepped := determine_active_agents user_message s2
    let s3 := stepped.2
    let agent_responses := process_through_agents cfg orc user_message s3 stepped.1
    let final_response := combine_agent_responses agent_responses
    let s4 := { s3 with
      conversation_history := setLastResponse final_response s3.conversation_history }
    match update_session_state s4 agent_responses with
    | .error e => .error (e, s4)
    | .ok s5 => .ok (final_response, s5)

/-- `process_message` below the session lookup: the `try/except` boundary.
Any exception inside the attempt is converted into the fixed
technical-difficulties outcome; the partially updated session persists. -/
def process_message_core (cfg : Config) (orc : TurnOracle) (s : Session)
    (user_message : String) : Outcome × Session :=
  match process_message_attempt cfg orc s user_message with
  | .ok r => r
  | .error (e, s1) => (techDifficultiesOutcome e, s1)

/-- The orchestrator object: configuration plus the `active_sessions` dict
(modelled as an association list; `uuid4` ids are generated fresh, so the
insert also overwrites any equal key, matching dict assignment). -/
structure State where
  config : Config := {}
  active_sessions : List (String × Session) := []

def storeInsert (l : List (String × Session)) (id : String) (s : Session) :
    List (String × Session) :=
  (id, s) :: l.filter (fun p => p.1 != id)

/-- `start_session(caller_info)`; the generated uuid is a parameter. -/
def start_session (o : State) (session_id : String) (caller_info : Option CallerInfo) :
    String × State :=
  (session_id,
   { o with active_sessions :=
       storeInsert o.active_sessions session_id (freshSession session_id caller_info) })

/-- `str(ValueError(f"Session {session_id} not found"))`. -/
def notFoundError (session_id : String) : String := "Session " ++ session_id ++ " not found"

/-- Full `process_message(session_id, user_message)`: raises `ValueError`
(`Except.error`) when the id is not in the live store. -/
def process_message (o : State) (session_id user_message : String) (orc : TurnOracle) :
    Except String (Outcome × State) :=
  match o.active_sessions.lookup session_id with
  | none => .error (notFoundError session_id)
  | some s =>
    let r := process_message_core o.config orc s user_message
    .ok (r.1, { o with active_sessions := storeInsert o.active_sessions session_id r.2 })

/-- The status projection of `get_session_status` (durations and average
response time are wall clock and omitted). -/
structure Summary where
  session_id : String
  turn_number : Nat
  urgency_level : String
  emergency_type : String
  triage_complete : Bool
  dispatch_attempted : Bool
  dispatch_successful : Bool
  empathy_score : ℚ
  total_turns : Option Nat := none

def summaryOf (session_id : String) (s : Session) : Summary :=
  { session_id := session_id
    turn_number := s.turn_number
    urgency_level := s.urgency_level
    emergency_type := s.emergency_type
    triage_complete := s.triage_complete
    dispatch_attempted := s.dispatch_attempted
    dispatch_successful := s.dispatch_successful
    empathy_score := s.empathy_score }

/-- `get_session_status(session_id)`. -/
def get_session_status (o : State) (session_id : String) : Except String Summary :=
  match o.active_sessions.lookup session_id with
  | none => .error (notFoundError session_id)
  | some s => .ok (summaryOf session_id s)

/-- `end_session(session_id)`: final summary plus removal from the live
store (`del self.active_sessions[session_id]`). -/
def end_session (o : State) (session_id : String) :
    Except String (Summary × State) :=
  match o.active_sessions.lookup session_id with
  | none => .error (notFoundError session_id)
  | some s =>
    .ok ({ summaryOf session_id s with total_turns := some s.turn_number },
         { o with active_sessions := o.active_sessions.filter (fun p => p.1 != session_id) })

/-- Store after a `process_message` call (unchanged when it raised). -/
def turnStore (o : State) (session_id user_message : String) (orc : TurnOracle) : State :=
  match process_message o session_id user_message orc with
  | .ok r => r.2
  | .error _ => o

/-- Store after an `end_session` call (unchanged when it raised). -/
def endStore (o : State) (session_id : String) : State :=
  match end_session o session_id with
  | .ok r => r.2
  | .error _ => o

/-- Orchestrator states reachable by any interleaving of the public
operations (`get_session_status` is read-only and changes nothing). -/
inductive Reachable : State → Prop where
  | init (cfg : Config) : Reachable { config := cfg, active_sessions := [] }
  | start (o : State) (id : String) (info : Option CallerInfo) :
      Reachable o → Reachable (start_session o id info).2
  | turn (o : State) (id msg : String) (orc : TurnOracle) :
      Reachable o → Reachable (turnStore o id msg orc)
  | ended (o : State) (id : String) :
      Reachable o → Reachable (endStore o id)

end Orchestrator

open Orchestrator

/-! ## Claim theorems -/

/-- Claim C5: for every non-empty fan-in mapping, the merge picks the primary
by the strict priority order dispatch > guidance > triage > support (first
tag present wins); whenever the primary is not the support (empathy) outcome
and a support outcome is present, the final message is the support message,
one space, then the primary message — exactly one prepend — and otherwise
the final message is the primary message unchanged. -/
theorem c5_merge_priority_support_prepend (r : AgentResponses) :
    (∀ o, r.dispatch = some o → primaryOf r = some ("dispatch", o)) ∧
    (∀ o, r.dispatch = none → r.guidance = some o → primaryOf r = some ("guidance", o)) ∧
    (∀ o, r.dispatch = none → r.guidance = none → r.triage = some o →
      primaryOf r = some ("triage", o)) ∧
    (∀ o, r.dispatch = none → r.guidance = none → r.triage = none → r.empathy = some o →
      primaryOf r = some ("empathy", o)) ∧
    (∀ tag o emp, primaryOf r = some (tag, o) → tag ≠ "empathy" → r.empathy = some emp →
      (combine_agent_responses r).message = emp.message ++ " " ++ o.message) ∧
    (∀ tag o, primaryOf r = some (tag, o) → (tag = "empathy" ∨ r.empathy = none) →
      (combine_agent_responses r).message = o.message) := by
  refine ⟨?_, ?_, ?_, ?_, ?_, ?_⟩
  · intro o h; simp [primaryOf, h]
  · intro o h1 h2; simp [primaryOf, h1, h2]
  · intro o h1 h2 h3; simp [primaryOf, h1, h2, h3]
  · intro o h1 h2 h3 h4; simp [primaryOf, h1, h2, h3, h4]
  · intro tag o emp hp htag hemp
    simp only [combine_agent_responses, hp, hemp]
    have : (tag != "empathy") = true := by
      simp [bne_iff_ne]; exact htag
    simp [this]
  · intro tag o hp hcase
    rcases hcase with htag | hemp
    · subst htag; simp [combine_agent_responses, hp]
    · simp [combine_agent_responses, hp, hemp]

/-- Claim C5 witness: a mapping with triage and support outcomes merges to
the support text, one space, then the triage text. -/
theorem c5_witness :
    (combine_agent_responses
      { triage := some { message := "TRI", agent_type := "triage", confidence := mkRat 1 2,
                         urgency_level := some "low", metadata := {} },
        empathy := some { message := "EMP", agent_type := "empathy", confidence := mkRat 9 10,
                          urgency_level := some "low", metadata := {} } }).message = "EMP TRI" :=
  (c5_merge_priority_support_prepend _).2.2.2.2.1 "triage"
    { message := "TRI", agent_type := "triage", confidence := mkRat 1 2,
      urgency_level := some "low", metadata := {} }
    { message := "EMP", agent_type := "empathy", confidence := mkRat 9 10,
      urgency_level := some "low", metadata := {} }
    rfl (by decide) rfl

/-- Claim C9: within one turn, a selected responder whose invocation fails
gets its slot filled with the synthetic low-confidence error outcome
carrying the failure detail, while every other selected responder\x27s slot
holds its own normally computed outcome (a term that does not depend on the
failing responder); no failure aborts the turn\x27s fan-in. -/
theorem c9_responder_failure_isolated (cfg : Config) (orc : TurnOracle) (msg : String)
    (s : Session) (active : List String) :
    (∀ e, active.contains "empathy" = true → orc.empathyRaise = some e →
      (process_through_agents cfg orc msg s active).empathy = some (errorOutcome "empathy" e)) ∧
    (active.contains "empathy" = true → orc.empathyRaise = none →
      (process_through_agents cfg orc msg s active).empathy =
        some (EmpathyAgent.process_message orc.empathy msg (build_context s msg))) ∧
    (∀ e, active.contains "triage" = true → orc.triageRaise = some e →
      (process_through_agents cfg orc msg s active).triage = some (errorOutcome "triage" e)) ∧
    (active.contains "triage" = true → orc.triageRaise = none →
      (process_through_agents cfg orc msg s active).triage =
        some (TriageAgent.process_message orc.triageInternal msg (build_context s msg))) ∧
    (∀ e, active.contains "guidance" = true → orc.guidanceRaise = some e →
      (process_through_agents cfg orc msg s active).guidance = some (errorOutcome "guidance" e)) ∧
    (active.contains "guidance" = true → orc.guidanceRaise = none →
      (process_through_agents cfg orc msg s active).guidance =
        some (GuidanceAgent.process_message orc.guidanceInternal msg (build_context s msg))) ∧
    (∀ e, active.contains "dispatch" = true → orc.dispatchRaise = some e →
      (process_through_agents cfg orc msg s active).dispatch = some (errorOutcome "dispatch" e)) ∧
    (active.contains "dispatch" = true → orc.dispatchRaise = none →
      (process_through_agents cfg orc msg s active).dispatch =
        some (DispatchAgent.process_message cfg orc.dispatch msg (build_context s msg))) ∧
    (∀ name e, (errorOutcome name e).confidence = mkRat 1 10 ∧
      (errorOutcome name e).metadata.error = some e ∧
      (errorOutcome name e).message = "Error in " ++ name ++ " processing") := by
  refine ⟨?_, ?_, ?_, ?_, ?_, ?_, ?_, ?_, ?_⟩ <;>
    first
      | (intro e hc hr
         simp [process_through_agents, hr, List.mem_of_elem_eq_true hc])
      | (intro hc hr
         simp [process_through_agents, hr, List.mem_of_elem_eq_true hc])
      | (intro name e; exact ⟨rfl, rfl, rfl⟩)

/-- Claim C9 witness: with triage and dispatch selected and the dispatch
invocation failing, the dispatch slot is the synthetic error outcome and the
triage slot is the normal triage outcome. -/
theorem c9_witness :
    (process_through_agents defaultConfig { dispatchRaise := some "boom" } "please hurry"
        (freshSession "w9" none) ["triage", "dispatch"]).dispatch =
      some (errorOutcome "dispatch" "boom") ∧
    (process_through_agents defaultConfig { dispatchRaise := some "boom" } "please hurry"
        (freshSession "w9" none) ["triage", "dispatch"]).triage =
      some (TriageAgent.process_message none "please hurry"
        (build_context (freshSession "w9" none) "please hurry")) :=
  ⟨(c9_responder_failure_isolated defaultConfig { dispatchRaise := some "boom" } "please hurry"
      (freshSession "w9" none) ["triage", "dispatch"]).2.2.2.2.2.2.1 "boom" (by decide) rfl,
   (c9_responder_failure_isolated defaultConfig { dispatchRaise := some "boom" } "please hurry"
      (freshSession "w9" none) ["triage", "dispatch"]).2.2.2.1 (by decide) rfl⟩

/-- Claim C10 (amended): the synthetic error outcome carries no
`urgency_level` field, unlike every outcome the four agents produce (which
always carry one), and when the failed responder is the primary of the
merge the merged outcome lacks the field; that merged outcome reaches the
caller only when the session update still succeeds — shown end-to-end for a
failing dispatch responder.  When the triage slot itself is the synthetic
error dict, `_update_session_state` reads the missing key and raises
`KeyError("urgency_level")`, so the caller instead receives the
technical-difficulties outcome, which does carry `urgency_level =
"unknown"`. -/
theorem c10_error_outcome_lacks_urgency (e : String) (r : AgentResponses) :
    (∀ name, (errorOutcome name e).urgency_level = none) ∧
    (r.dispatch = some (errorOutcome "dispatch" e) →
      (combine_agent_responses r).urgency_level = none) ∧
    (∀ raiseInternal msg ctx,
      (TriageAgent.process_message raiseInternal msg ctx).urgency_level.isSome = true) ∧
    (∀ raiseInternal msg ctx,
      (GuidanceAgent.process_message raiseInternal msg ctx).urgency_level.isSome = true) ∧
    (∀ cfg dorc msg ctx,
      (DispatchAgent.process_message cfg dorc msg ctx).urgency_level.isSome = true) ∧
    (∀ eorc msg ctx,
      (EmpathyAgent.process_message eorc msg ctx).urgency_level.isSome = true) ∧
    ((process_message_core defaultConfig { dispatchRaise := some "boom" }
        { freshSession "c10" none with urgency_level := "critical" }
        "please hurry").1.urgency_level = none) ∧
    (∀ (s4 : Session) (e2 : String) (r2 : AgentResponses),
      r2.triage = some (errorOutcome "triage" e2) →
      update_session_state s4 r2 = .error "\x27urgency_level\x27") ∧
    ((techDifficultiesOutcome "\x27urgency_level\x27").urgency_level = some "unknown") := by
  refine ⟨fun name => rfl, ?_, ?_, ?_, ?_, ?_, by decide, ?_, rfl⟩
  · intro h
    cases hemp : r.empathy <;>
      simp [combine_agent_responses, primaryOf, h, hemp, errorOutcome]
  · intro raiseInternal msg ctx
    cases raiseInternal <;> simp [TriageAgent.process_message]
  · intro raiseInternal msg ctx
    cases raiseInternal <;> simp [GuidanceAgent.process_message]
  · intro cfg dorc msg ctx
    cases h : dorc.raiseInternal <;>
      simp [DispatchAgent.process_message, h] <;> split <;> simp
  · intro eorc msg ctx
    cases h : eorc.raiseInternal <;> simp [EmpathyAgent.process_message, h]
  · intro s4 e2 r2 hr2
    unfold update_session_state
    rw [hr2]
    rfl

/-- Claim C10 witness: a mapping whose dispatch slot is the synthetic error
outcome merges to an outcome without the urgency field. -/
theorem c10_witness :
    (combine_agent_responses { dispatch := some (errorOutcome "dispatch" "boom") }).urgency_level
      = none :=
  (c10_error_outcome_lacks_urgency "boom"
    { dispatch := some (errorOutcome "dispatch" "boom") }).2.1 rfl

/-- Claim C10 counterexample: on a fresh session, the message "all fine here
thanks" selects only the triage responder, so triage is the highest-priority
selected responder; its invocation fails, yet the outcome the call returns
is the technical-difficulties fallback, which carries
`urgency_level = "unknown"` — it does not lack the field: the synthetic
error dict\x27s missing `urgency_level` key makes `_update_session_state`
raise `KeyError("urgency_level")` before the merged outcome can be
returned. -/
theorem c10_counterexample :
    (process_message_core defaultConfig { triageRaise := some "boom" }
        (freshSession "x10" none) "all fine here thanks").2.agent_activations
      = [(1, ["triage"])] ∧
    (process_message_core defaultConfig { triageRaise := some "boom" }
        (freshSession "x10" none) "all fine here thanks").1 =
      techDifficultiesOutcome "\x27urgency_level\x27" ∧
    (process_message_core defaultConfig { triageRaise := some "boom" }
        (freshSession "x10" none) "all fine here thanks").1.urgency_level = some "unknown" :=
  ⟨by decide, by rfl, by decide⟩

/-- `"suicide"` is already lowercase. -/
theorem pyLower_suicide : pyLower "suicide" = "suicide" := by decide

/-- A message whose lowercase form contains `"suicide"` puts `"suicide"`
into the safety-trigger list. -/
theorem suicide_mem_safetyTriggersOf (msg : String)
    (h : pyIn "suicide" (pyLower msg) = true) :
    "suicide" ∈ safetyTriggersOf defaultConfig msg := by
  refine List.mem_filter.mpr ⟨by decide, ?_⟩
  show pyIn (pyLower "suicide") (pyLower msg) = true
  rw [pyLower_suicide]; exact h

/-- On a suicide-containing message `_perform_safety_checks` takes the
self-harm branch and increments the trigger counter. -/
theorem perform_safety_checks_suicide (s : Session) (msg : String)
    (h : pyIn "suicide" (pyLower msg) = true) :
    perform_safety_checks defaultConfig msg s =
      (.blockedOutcome (selfHarmOutcome (safetyTriggersOf defaultConfig msg)),
       { s with safety_triggers := s.safety_triggers + 1 }) := by
  have hmem := suicide_mem_safetyTriggersOf msg h
  have hne : (safetyTriggersOf defaultConfig msg).isEmpty = false := by
    cases hl : safetyTriggersOf defaultConfig msg with
    | nil => rw [hl] at hmem; simp at hmem
    | cons a l => simp
  have hcont : (safetyTriggersOf defaultConfig msg).contains "suicide" = true :=
    List.elem_eq_true_of_mem hmem
  simp [perform_safety_checks, hne, hcont, hmem]

/-- Claim C1 (code bug record): for any session and any message whose
lowercase form contains the configured trigger phrase `"suicide"`, the call
increments `safetyTriggerCount` by exactly one — but the outcome returned is
the technical-difficulties fallback (`agent_type = "system"`, urgency
`"unknown"`, no blocked flag), not the critical crisis outcome: the blocking
dict stores `"blocked"` only under `metadata`, so `process_message`\x27s
`safety_check["blocked"]` read raises `KeyError`, which the `except` turns
into the fallback. -/
theorem c1_suicide_message_keyerror (s : Session) (msg : String) (orc : TurnOracle)
    (h : pyIn "suicide" (pyLower msg) = true) :
    process_message_core defaultConfig orc s msg =
      (techDifficultiesOutcome "\x27blocked\x27",
       { s with safety_triggers := s.safety_triggers + 1 }) ∧
    (techDifficultiesOutcome "\x27blocked\x27").agent_type = "system" ∧
    (techDifficultiesOutcome "\x27blocked\x27").urgency_level = some "unknown" ∧
    (techDifficultiesOutcome "\x27blocked\x27").metadata.blocked = none ∧
    (selfHarmOutcome (safetyTriggersOf defaultConfig msg)).urgency_level = some "critical" := by
  refine ⟨?_, rfl, rfl, rfl, rfl⟩
  simp [process_message_core, process_message_attempt, perform_safety_checks_suicide s msg h]

/-- Claim C1 witness: concrete suicide message on a fresh session. -/
theorem c1_witness :
    process_message_core defaultConfig {} (freshSession "w1" none) "I am thinking about suicide" =
      (techDifficultiesOutcome "\x27blocked\x27",
       { freshSession "w1" none with safety_triggers := 1 }) :=
  (c1_suicide_message_keyerror (freshSession "w1" none) "I am thinking about suicide" {}
    (by decide)).1

/-- Claim C3 (code bug record): when the turn counter has reached the
configured maximum and the message matches no safety trigger, the call sets
`loopBreakerActive` and leaves `turnNumber` unchanged — but returns the
technical-difficulties fallback instead of the high-urgency blocked hand-off
outcome, for the same `KeyError("blocked")` reason as C1. -/
theorem c3_loop_breaker_keyerror (s : Session) (msg : String) (orc : TurnOracle)
    (hkw : safetyTriggersOf defaultConfig msg = [])
    (hturn : defaultConfig.MAX_CONVERSATION_TURNS ≤ s.turn_number) :
    process_message_core defaultConfig orc s msg =
      (techDifficultiesOutcome "\x27blocked\x27", { s with loop_breaker_active := true }) ∧
    ({ s with loop_breaker_active := true } : Session).turn_number = s.turn_number ∧
    ({ s with loop_breaker_active := true } : Session).loop_breaker_active = true ∧
    (techDifficultiesOutcome "\x27blocked\x27").urgency_level = some "unknown" ∧
    loopBreakerOutcome.urgency_level = some "high" := by
  refine ⟨?_, rfl, rfl, rfl, rfl⟩
  have hps : perform_safety_checks defaultConfig msg s =
      (.blockedOutcome loopBreakerOutcome, { s with loop_breaker_active := true }) := by
    simp [perform_safety_checks, hkw, hturn]
  simp [process_message_core, process_message_attempt, hps]

/-- Claim C3 witness: the 51st call on a session with 50 completed turns. -/
theorem c3_witness :
    process_message_core defaultConfig {} { freshSession "w3" none with turn_number := 50 }
        "hello there friend" =
      (techDifficultiesOutcome "\x27blocked\x27",
       { freshSession "w3" none with turn_number := 50, loop_breaker_active := true }) :=
  (c3_loop_breaker_keyerror { freshSession "w3" none with turn_number := 50 }
    "hello there friend" {} (by decide) (by decide)).1

/-- Claim C2 counterexample: on the suicide message the call does hit an
internal failure and does return the technical-difficulties outcome, but the
session state visible after the call differs from the state before it — the
safety-trigger increment survives, so the update is not atomic. -/
theorem c2_counterexample :
    process_message_attempt defaultConfig {} (freshSession "w2" none)
        "I am thinking about suicide" =
      .error ("\x27blocked\x27", { freshSession "w2" none with safety_triggers := 1 }) ∧
    (process_message_core defaultConfig {} (freshSession "w2" none)
        "I am thinking about suicide").1.agent_type = "system" ∧
    (process_message_core defaultConfig {} (freshSession "w2" none)
        "I am thinking about suicide").2.safety_triggers = 1 ∧
    (freshSession "w2" none).safety_triggers = 0 := by
  refine ⟨by rfl, by decide, by decide, by rfl⟩

/-- Claim C2 (amended): whenever the attempt inside `process_message` fails,
the call returns the fixed low-confidence technical-difficulties outcome
rather than propagating the failure — but the session state it leaves behind
is the partially mutated state at the failure point, not the pre-call
state. -/
theorem c2_amended_tech_difficulties (cfg : Config) (orc : TurnOracle) (s s1 : Session)
    (msg e : String)
    (h : process_message_attempt cfg orc s msg = .error (e, s1)) :
    process_message_core cfg orc s msg = (techDifficultiesOutcome e, s1) ∧
    (techDifficultiesOutcome e).confidence = mkRat 1 10 ∧
    (techDifficultiesOutcome e).message =
      "I\x27m experiencing technical difficulties. Please call 911 directly if this is an emergency." ∧
    (techDifficultiesOutcome e).metadata.error = some e := by
  refine ⟨?_, rfl, rfl, rfl⟩
  simp [process_message_core, h]

/-- Claim C2 witness: the amended statement applied at the concrete suicide
input (the returned state carries the surviving counter increment). -/
theorem c2_amended_witness :
    process_message_core defaultConfig {} (freshSession "w2b" none)
        "I am thinking about suicide" =
      (techDifficultiesOutcome "\x27blocked\x27",
       { freshSession "w2b" none with safety_triggers := 1 }) :=
  (c2_amended_tech_difficulties defaultConfig {} (freshSession "w2b" none)
    { freshSession "w2b" none with safety_triggers := 1 }
    "I am thinking about suicide" "\x27blocked\x27" (by rfl)).1

/-! ## State-preservation lemmas for the turn pipeline -/

/-- With an empty `questionsAsked` set the required-question check fails. -/
theorem is_triage_complete_no_questions (ctx : Context) (h : ctx.questions_asked = []) :
    TriageAgent.is_triage_complete ctx = false := by
  unfold TriageAgent.is_triage_complete
  simp only [h]
  split <;> decide

/-- Dispatch readiness requires `triageComplete`. -/
theorem ready_to_dispatch_incomplete (ctx : Context) (h : ctx.triage_complete = false) :
    DispatchAgent.ready_to_dispatch ctx = false := by
  simp [DispatchAgent.ready_to_dispatch, h]

/-- Whatever the triage slot holds (normal outcome, agent fallback, or the
orchestrator error dict), its `triage_complete` signal is falsy when the
session has no recorded questions. -/
theorem triage_slot_signal (cfg : Config) (orc : TurnOracle) (msg : String) (s : Session)
    (active : List String) (hq : s.questions_asked = []) :
    ∀ o, (process_through_agents cfg orc msg s active).triage = some o →
      optBoolTruthy o.metadata.triage_complete = false := by
  intro o ho
  unfold process_through_agents at ho
  cases hc : active.contains "triage" <;> simp only [hc] at ho
  · simp at ho
  · simp only [if_true, Option.some.injEq] at ho
    cases hr : orc.triageRaise <;> simp only [hr] at ho
    case some e => subst ho; rfl
    case none =>
      cases hi : orc.triageInternal <;>
        simp only [TriageAgent.process_message, hi] at ho
      case some e => subst ho; rfl
      case none =>
        rcases hassess : TriageAgent.assess_urgency msg with ⟨u, et⟩
        simp only [hassess] at ho
        subst ho
        have hctx : (build_context s msg).questions_asked = [] := hq
        simp [is_triage_complete_no_questions _ hctx, optBoolTruthy]

/-- Whatever the dispatch slot holds, its `dispatch_attempted` and
`dispatch_successful` signals are falsy when the session\x27s triage is not
complete (readiness then fails, so the not-ready branch is taken). -/
theorem dispatch_slot_signal (cfg : Config) (orc : TurnOracle) (msg : String) (s : Session)
    (active : List String) (ht : s.triage_complete = false) :
    ∀ o, (process_through_agents cfg orc msg s active).dispatch = some o →
      optBoolTruthy o.metadata.dispatch_attempted = false ∧
      optBoolTruthy o.metadata.dispatch_successful = false := by
  intro o ho
  unfold process_through_agents at ho
  cases hc : active.contains "dispatch" <;> simp only [hc] at ho
  · simp at ho
  · simp only [if_true, Option.some.injEq] at ho
    cases hr : orc.dispatchRaise <;> simp only [hr] at ho
    case some e => subst ho; exact ⟨rfl, rfl⟩
    case none =>
      cases hi : orc.dispatch.raiseInternal <;>
        simp only [DispatchAgent.process_message, hi] at ho
      case some e => subst ho; exact ⟨rfl, rfl⟩
      case none =>
        have hctx : (build_context s msg).triage_complete = false := ht
        rw [ready_to_dispatch_incomplete _ hctx] at ho
        simp only [Bool.not_false, if_true] at ho
        subst ho; exact ⟨rfl, rfl⟩

/-- `_perform_safety_checks` only touches the trigger counter and the
loop-breaker flag. -/
theorem perform_safety_checks_fields (cfg : Config) (msg : String) (s : Session) :
    (perform_safety_checks cfg msg s).2.urgency_level = s.urgency_level ∧
    (perform_safety_checks cfg msg s).2.questions_asked = s.questions_asked ∧
    (perform_safety_checks cfg msg s).2.triage_complete = s.triage_complete ∧
    (perform_safety_checks cfg msg s).2.dispatch_attempted = s.dispatch_attempted ∧
    (perform_safety_checks cfg msg s).2.dispatch_successful = s.dispatch_successful := by
  unfold perform_safety_checks
  dsimp only
  split_ifs <;> exact ⟨rfl, rfl, rfl, rfl, rfl⟩

/-- The triage-metadata folds never touch urgency, questions, or the
dispatch flags, and set `triageComplete` only when the signal is truthy. -/
theorem applyTriageMeta_fields (s : Session) (m : AgentMetadata) :
    (applyTriageMeta s m).urgency_level = s.urgency_level ∧
    (applyTriageMeta s m).questions_asked = s.questions_asked ∧
    (applyTriageMeta s m).dispatch_attempted = s.dispatch_attempted ∧
    (applyTriageMeta s m).dispatch_successful = s.dispatch_successful ∧
    (applyTriageMeta s m).triage_complete = (s.triage_complete || optBoolTruthy m.triage_complete) := by
  unfold applyTriageMeta
  cases m.emergency_type <;> cases m.critical_keywords <;>
    cases hb : optBoolTruthy m.triage_complete <;>
      simp only [hb] <;> split_ifs <;> simp_all

/-- The dispatch-metadata folds never touch urgency, questions or
`triageComplete`, and set the dispatch flags only on truthy signals. -/
theorem applyDispatchMeta_fields (s : Session) (r : AgentResponses) :
    (applyDispatchMeta s r).urgency_level = s.urgency_level ∧
    (applyDispatchMeta s r).questions_asked = s.questions_asked ∧
    (applyDispatchMeta s r).triage_complete = s.triage_complete ∧
    ((∀ o, r.dispatch = some o → optBoolTruthy o.metadata.dispatch_attempted = false ∧
        optBoolTruthy o.metadata.dispatch_successful = false) →
      (applyDispatchMeta s r).dispatch_attempted = s.dispatch_attempted ∧
      (applyDispatchMeta s r).dispatch_successful = s.dispatch_successful) := by
  unfold applyDispatchMeta
  cases hd : r.dispatch with
  | none => exact ⟨rfl, rfl, rfl, fun _ => ⟨rfl, rfl⟩⟩
  | some dr =>
    dsimp only
    refine ⟨by split_ifs <;> rfl, by split_ifs <;> rfl, by split_ifs <;> rfl, fun hsig => ?_⟩
    obtain ⟨h1, h2⟩ := hsig dr rfl
    simp [h1, h2]

/-- The empathy fold only touches `empathyScore`. -/
theorem applyEmpathyMeta_fields (s : Session) (r : AgentResponses) :
    (applyEmpathyMeta s r).urgency_level = s.urgency_level ∧
    (applyEmpathyMeta s r).questions_asked = s.questions_asked ∧
    (applyEmpathyMeta s r).triage_complete = s.triage_complete ∧
    (applyEmpathyMeta s r).dispatch_attempted = s.dispatch_attempted ∧
    (applyEmpathyMeta s r).dispatch_successful = s.dispatch_successful := by
  unfold applyEmpathyMeta
  cases r.empathy with
  | none => exact ⟨rfl, rfl, rfl, rfl, rfl⟩
  | some er => dsimp only; split_ifs <;> exact ⟨rfl, rfl, rfl, rfl, rfl⟩

/-- One-turn relation between a session before and after `process_message`:
urgency is kept or stays non-unknown, questions are never written, and — on
a session with no questions and incomplete triage — the three one-way flags
the triage/dispatch metadata could set remain unset. -/
def SessionStep (s t : Session) : Prop :=
  (t.urgency_level = s.urgency_level ∨ t.urgency_level ≠ "unknown") ∧
  t.questions_asked = s.questions_asked ∧
  (s.questions_asked = [] → s.triage_complete = false →
    t.triage_complete = false ∧
    (s.dispatch_attempted = false → t.dispatch_attempted = false) ∧
    (s.dispatch_successful = false → t.dispatch_successful = false))

theorem sessionStep_refl (s : Session) : SessionStep s s :=
  ⟨Or.inl rfl, rfl, fun _ h2 => ⟨h2, fun h => h, fun h => h⟩⟩

/-- Field effects of the guarded urgency write of `_update_session_state`. -/
theorem urgencyWrite_fields (s : Session) (u : String) :
    ((if u ≠ "unknown" then { s with urgency_level := u } else s).urgency_level = s.urgency_level ∨
     (if u ≠ "unknown" then { s with urgency_level := u } else s).urgency_level ≠ "unknown") ∧
    (if u ≠ "unknown" then { s with urgency_level := u } else s).questions_asked = s.questions_asked ∧
    (if u ≠ "unknown" then { s with urgency_level := u } else s).triage_complete = s.triage_complete ∧
    (if u ≠ "unknown" then { s with urgency_level := u } else s).dispatch_attempted = s.dispatch_attempted ∧
    (if u ≠ "unknown" then { s with urgency_level := u } else s).dispatch_successful = s.dispatch_successful := by
  split_ifs with hue
  · exact ⟨Or.inr hue, rfl, rfl, rfl, rfl⟩
  · exact ⟨Or.inl rfl, rfl, rfl, rfl, rfl⟩

/-- A successful `_update_session_state` keeps urgency (or leaves it
non-unknown), never writes `questionsAsked`, and keeps `triageComplete` and
the dispatch flags whenever the corresponding slot signals are falsy. -/
theorem update_session_state_step (s : Session) (r : AgentResponses) (s5 : Session)
    (h : update_session_state s r = .ok s5) :
    (s5.urgency_level = s.urgency_level ∨ s5.urgency_level ≠ "unknown") ∧
    s5.questions_asked = s.questions_asked ∧
    ((∀ o, r.triage = some o → optBoolTruthy o.metadata.triage_complete = false) →
      s5.triage_complete = s.triage_complete) ∧
    ((∀ o, r.dispatch = some o → optBoolTruthy o.metadata.dispatch_attempted = false ∧
        optBoolTruthy o.metadata.dispatch_successful = false) →
      s5.dispatch_attempted = s.dispatch_attempted ∧
      s5.dispatch_successful = s.dispatch_successful) := by
  unfold update_session_state at h
  cases htr : r.triage with
  | none =>
    simp only [htr] at h
    injection h with h
    subst h
    obtain ⟨e1, e2, e3, e4, e5⟩ := applyEmpathyMeta_fields (applyDispatchMeta s r) r
    obtain ⟨d1, d2, d3, d4⟩ := applyDispatchMeta_fields s r
    refine ⟨Or.inl (e1.trans d1), e2.trans d2, fun _ => e3.trans d3, fun hdis => ?_⟩
    obtain ⟨d4a, d4b⟩ := d4 hdis
    exact ⟨e4.trans d4a, e5.trans d4b⟩
  | some tr =>
    simp only [htr] at h
    cases hu : tr.urgency_level with
    | none => simp only [hu] at h; simp at h
    | some u =>
      simp only [hu] at h
      injection h with h
      subst h
      obtain ⟨u1, u2, u3, u4, u5⟩ := urgencyWrite_fields s u
      obtain ⟨t1, t2, t3, t4, t5⟩ := applyTriageMeta_fields
        (if u ≠ "unknown" then { s with urgency_level := u } else s) tr.metadata.toAgentMetadata
      obtain ⟨d1, d2, d3, d4⟩ := applyDispatchMeta_fields
        (applyTriageMeta (if u ≠ "unknown" then { s with urgency_level := u } else s)
          tr.metadata.toAgentMetadata) r
      obtain ⟨e1, e2, e3, e4, e5⟩ := applyEmpathyMeta_fields
        (applyDispatchMeta (applyTriageMeta (if u ≠ "unknown" then { s with urgency_level := u } else s)
          tr.metadata.toAgentMetadata) r) r
      refine ⟨?_, ?_, fun htri => ?_, fun hdis => ?_⟩
      · rcases u1 with hk | hk
        · exact Or.inl ((e1.trans (d1.trans t1)).trans hk)
        · exact Or.inr (by rw [e1, d1, t1]; exact hk)
      · exact (e2.trans (d2.trans t2)).trans u2
      · have hsig := htri tr rfl
        rw [e3, d3, t5, hsig, u3, Bool.or_false]
      · obtain ⟨d4a, d4b⟩ := d4 hdis
        exact ⟨(e4.trans (d4a.trans t3)).trans u4, (e5.trans (d4b.trans t4)).trans u5⟩

/-- `_determine_active_agents` only appends to the activation log. -/
theorem determine_active_agents_fields (msg : String) (s : Session) :
    (determine_active_agents msg s).2.questions_asked = s.questions_asked ∧
    (determine_active_agents msg s).2.urgency_level = s.urgency_level ∧
    (determine_active_agents msg s).2.triage_complete = s.triage_complete ∧
    (determine_active_agents msg s).2.dispatch_attempted = s.dispatch_attempted ∧
    (determine_active_agents msg s).2.dispatch_successful = s.dispatch_successful :=
  ⟨rfl, rfl, rfl, rfl, rfl⟩

/-- Both exits of the `try` body satisfy `SessionStep` against the pre-call
session. -/
theorem process_message_attempt_step (cfg : Config) (orc : TurnOracle) (s : Session)
    (msg : String) :
    (∀ e s1, process_message_attempt cfg orc s msg = .error (e, s1) → SessionStep s s1) ∧
    (∀ out s5, process_message_attempt cfg orc s msg = .ok (out, s5) → SessionStep s s5) := by
  obtain ⟨p1, p2, p3, p4, p5⟩ := perform_safety_checks_fields cfg msg s
  unfold process_message_attempt
  dsimp only
  cases hpc : (perform_safety_checks cfg msg s).1 with
  | blockedOutcome o =>
    refine ⟨fun e s1 h => ?_, fun out s5 h => by simp at h⟩
    simp only [Except.error.injEq, Prod.mk.injEq] at h
    obtain ⟨-, hs⟩ := h
    subst hs
    exact ⟨Or.inl p1, p2, fun _ h2 => ⟨p3.trans h2, fun h4 => p4.trans h4, fun h5 => p5.trans h5⟩⟩
  | notBlocked =>
    dsimp only
    constructor
    · intro e s1 h
      split at h
      · simp only [Except.error.injEq, Prod.mk.injEq] at h
        obtain ⟨-, hs⟩ := h
        subst hs
        exact ⟨Or.inl p1, p2, fun _ h2 => ⟨p3.trans h2, fun h4 => p4.trans h4, fun h5 => p5.trans h5⟩⟩
      · exact Except.noConfusion h
    · intro out s5 h
      split at h
      · exact Except.noConfusion h
      · rename_i s5x hup
        injection h with h
        injection h with h1 h2
        subst h2
        obtain ⟨u1, u2, u3, u4⟩ := update_session_state_step _ _ _ hup
        refine ⟨?_, u2.trans p2, fun hq h2 => ?_⟩
        · rcases u1 with hk | hk
          · exact Or.inl (hk.trans p1)
          · exact Or.inr hk
        · have hsigT := u3 (triage_slot_signal cfg orc msg _ _ (p2.trans hq))
          have hsigD := u4 (dispatch_slot_signal cfg orc msg _ _ (p3.trans h2))
          exact ⟨hsigT.trans (p3.trans h2),
                 fun hda => hsigD.1.trans (p4.trans hda),
                 fun hds => hsigD.2.trans (p5.trans hds)⟩

/-- Each `process_message` call relates the stored session before and after
by `SessionStep`, whether the turn succeeded or was recovered by the
`except` handler. -/
theorem process_message_core_step (cfg : Config) (orc : TurnOracle) (s : Session)
    (msg : String) : SessionStep s (process_message_core cfg orc s msg).2 := by
  obtain ⟨he, hk⟩ := process_message_attempt_step cfg orc s msg
  unfold process_message_core
  cases ha : process_message_attempt cfg orc s msg with
  | ok r => obtain ⟨out, s5⟩ := r; exact hk out s5 ha
  | error p => obtain ⟨e, s1⟩ := p; exact he e s1 ha

/-- Claim C6 counterexample: a first turn reporting a heart attack drives the
session urgency to `"critical"`, and the very next turn mentioning moderate
pain overwrites it with `"medium"` — the urgency regresses from critical. -/
theorem c6_counterexample :
    (process_message_core defaultConfig {} (freshSession "c6" none)
        "My dad is having a heart attack").2.urgency_level = "critical" ∧
    (process_message_core defaultConfig {}
        (process_message_core defaultConfig {} (freshSession "c6" none)
          "My dad is having a heart attack").2
        "He says it is moderate pain now").2.urgency_level = "medium" := by
  exact ⟨by decide, by decide⟩

/-- Claim C6 (amended): the only monotonicity the update rule enforces is
that a non-`"unknown"` urgency never returns to `"unknown"` (the guard only
refuses `"unknown"` writes); any other non-unknown triage assessment — also
a lower one — overwrites the stored level. -/
theorem c6_amended_urgency_never_unknown_again (cfg : Config) (orc : TurnOracle)
    (s : Session) (msg : String) (h : s.urgency_level ≠ "unknown") :
    (process_message_core cfg orc s msg).2.urgency_level ≠ "unknown" := by
  rcases (process_message_core_step cfg orc s msg).1 with hk | hk
  · rw [hk]; exact h
  · exact hk

/-- Claim C6 witness: the amended statement applied after the critical first
turn of the counterexample run. -/
theorem c6_witness :
    (process_message_core defaultConfig {}
        (process_message_core defaultConfig {} (freshSession "c6" none)
          "My dad is having a heart attack").2
        "He says it is moderate pain now").2.urgency_level ≠ "unknown" :=
  c6_amended_urgency_never_unknown_again defaultConfig {}
    (process_message_core defaultConfig {} (freshSession "c6" none)
      "My dad is having a heart attack").2
    "He says it is moderate pain now" (by decide)

/-- Claim C7 (code bug record): the support responder\x27s activation
predicate is exactly "first turn (`turn_number == 0`) or recorded sentiment
below −0.3 or an emotional-distress keyword in the message" — but the
orchestrator increments `turn_number` before building the activation
context, so on the first `ProcessTurn` call the predicate sees turn 1 and
(the context never carries a sentiment score) the support responder is not
activated unless the message has a distress keyword: on the concrete first
message "There is a fire at my house" only triage activates. -/
theorem c7_support_activation (s : Session) (msg : String) :
    (∀ ctx : Context, EmpathyAgent.should_activate ctx = true ↔
      (ctx.turn_number = 0 ∨ ctx.sentiment_score.getD (mkRat 0 1) < mkRat (-3) 10 ∨
       ∃ kw ∈ (["scared", "afraid", "worried", "nervous", "panic"] : List String),
         pyIn kw (pyLower ctx.message) = true)) ∧
    (s.turn_number = 1 → s.questions_asked = [] →
      (∀ kw ∈ (["scared", "afraid", "worried", "nervous", "panic"] : List String),
        pyIn kw (pyLower msg) = false) →
      "empathy" ∉ (determine_active_agents msg s).1) ∧
    (process_message_core defaultConfig {} (freshSession "c7" none)
        "There is a fire at my house").2.agent_activations = [(1, ["triage"])] := by
  refine ⟨?_, ?_, by decide⟩
  · intro ctx
    unfold EmpathyAgent.should_activate
    split_ifs with h0 hs
    · exact iff_of_true rfl (Or.inl (beq_iff_eq.mp h0))
    · exact iff_of_true rfl (Or.inr (Or.inl hs))
    · constructor
      · intro hany
        exact Or.inr (Or.inr (by simpa [List.any_eq_true] using hany))
      · rintro (h | h | h)
        · exact absurd (beq_iff_eq.mpr h) h0
        · exact absurd h hs
        · simpa [List.any_eq_true] using h
  · intro ht hq hnk
    have hctx0 : EmpathyAgent.should_activate (build_context s msg) = false := by
      unfold EmpathyAgent.should_activate
      have h1 : (build_context s msg).turn_number = 1 := ht
      rw [h1]
      have h2 : ¬ ((build_context s msg).sentiment_score.getD (mkRat 0 1) < mkRat (-3) 10) := by
        show ¬ ((none : Option ℚ).getD (mkRat 0 1) < mkRat (-3) 10)
        decide
      rw [if_neg (by decide), if_neg h2]
      simp only [List.any_eq_false]
      intro kw hkw
      simpa using hnk kw hkw
    have htri : TriageAgent.should_activate (build_context s msg) = true := by
      unfold TriageAgent.should_activate
      rw [is_triage_complete_no_questions _ (show (build_context s msg).questions_asked = [] from hq)]
      simp
    intro hmem
    unfold determine_active_agents at hmem
    simp [hctx0, htri] at hmem

/-- Claim C7 witness: the membership statement instantiated at a concrete
first-turn session and message with no distress keyword. -/
theorem c7_witness :
    "empathy" ∉ (determine_active_agents "There is a fire at my house"
      { freshSession "w7" none with turn_number := 1 }).1 :=
  (c7_support_activation { freshSession "w7" none with turn_number := 1 }
    "There is a fire at my house").2.1 rfl rfl (by decide)

/-! ## Store-level lemmas -/

/-- `Except` success test. -/
def isOkE {α β : Type} : Except α β → Bool
  | .ok _ => true
  | .error _ => false

/-- Deleting a key makes later lookups of it fail. -/
theorem lookup_filter_self (l : List (String × Session)) (id : String) :
    (l.filter (fun p => p.1 != id)).lookup id = none := by
  induction l with
  | nil => rfl
  | cons hd tl ih =>
    obtain ⟨k, v⟩ := hd
    by_cases h : k = id
    · simp [List.filter, h, ih]
    · have hb : (k != id) = true := by simp [h]
      have hb2 : (id == k) = false := by simp [Ne.symm h]
      simp [List.filter, hb, List.lookup, hb2, ih]

/-- A successful lookup comes from a stored pair. -/
theorem lookup_mem {l : List (String × Session)} {id : String} {s : Session}
    (h : l.lookup id = some s) : (id, s) ∈ l := by
  induction l with
  | nil => simp [List.lookup] at h
  | cons hd tl ih =>
    obtain ⟨k, v⟩ := hd
    rw [List.lookup] at h
    cases hb : id == k with
    | true =>
      rw [hb] at h
      injection h with h
      subst h
      exact List.mem_cons.mpr (Or.inl (by rw [beq_iff_eq.mp hb]))
    | false =>
      rw [hb] at h
      exact List.mem_cons.mpr (Or.inr (ih h))

/-- Claim C8: `process_message` and `end_session` fail — with the
`Session ... not found` error — exactly when the id is absent from the live
store, and `end_session` removes the session, so a second `end_session` on
the same id fails with that error. -/
theorem c8_not_found_semantics (o : State) (id msg : String) (orc : TurnOracle) :
    isOkE (process_message o id msg orc) = (o.active_sessions.lookup id).isSome ∧
    isOkE (end_session o id) = (o.active_sessions.lookup id).isSome ∧
    (∀ e, process_message o id msg orc = .error e → e = notFoundError id) ∧
    (∀ e, end_session o id = .error e → e = notFoundError id) ∧
    ((o.active_sessions.lookup id).isSome = true →
      end_session (endStore o id) id = .error (notFoundError id)) := by
  cases hl : o.active_sessions.lookup id with
  | none =>
    refine ⟨?_, ?_, fun e h => ?_, fun e h => ?_, fun h => by simp at h⟩
    · simp [process_message, hl, isOkE]
    · simp [end_session, hl, isOkE]
    · unfold process_message at h
      simp only [hl] at h
      injection h with h
      exact h.symm
    · unfold end_session at h
      simp only [hl] at h
      injection h with h
      exact h.symm
  | some s =>
    refine ⟨?_, ?_, fun e h => ?_, fun e h => ?_, fun _ => ?_⟩
    · simp [process_message, hl, isOkE]
    · simp [end_session, hl, isOkE]
    · unfold process_message at h
      simp only [hl] at h
      exact Except.noConfusion h
    · unfold end_session at h
      simp only [hl] at h
      exact Except.noConfusion h
    · have hend : endStore o id =
          { o with active_sessions := o.active_sessions.filter (fun p => p.1 != id) } := by
        unfold endStore end_session
        simp only [hl]
      rw [hend]
      unfold end_session
      simp only [lookup_filter_self]

/-- Claim C8 witness: start one session, end it twice — the second call
fails with the not-found error. -/
theorem c8_witness :
    end_session (endStore (start_session {} "s1" none).2 "s1") "s1" =
      .error (notFoundError "s1") :=
  (c8_not_found_semantics (start_session {} "s1" none).2 "s1" "hello" {}).2.2.2.2 (by decide)

/-! ## Reachability invariant (claim C4) -/

/-- The three flag fields and the question set a reachable session can
never populate. -/
def SessionOK (s : Session) : Prop :=
  s.questions_asked = [] ∧ s.triage_complete = false ∧
  s.dispatch_attempted = false ∧ s.dispatch_successful = false

theorem sessionOK_step {s t : Session} (hstep : SessionStep s t) (h : SessionOK s) :
    SessionOK t := by
  obtain ⟨hq, htc, hda, hds⟩ := h
  obtain ⟨-, hq2, hcond⟩ := hstep
  obtain ⟨h1, h2, h3⟩ := hcond hq htc
  exact ⟨hq2.trans hq, h1, h2 hda, h3 hds⟩

/-- Every stored session of a reachable orchestrator satisfies
`SessionOK`. -/
theorem reachable_storeOK (o : State) (h : Reachable o) :
    ∀ p ∈ o.active_sessions, SessionOK p.2 := by
  induction h with
  | init cfg => intro p hp; simp at hp
  | start o id info ho ih =>
    intro p hp
    unfold start_session storeInsert at hp
    simp only [List.mem_cons] at hp
    rcases hp with rfl | hp
    · exact ⟨rfl, rfl, rfl, rfl⟩
    · exact ih p (List.mem_of_mem_filter hp)
  | turn o id msg orc ho ih =>
    intro p hp
    unfold turnStore at hp
    cases hpm : process_message o id msg orc with
    | error e => simp only [hpm] at hp; exact ih p hp
    | ok r =>
      simp only [hpm] at hp
      unfold process_message at hpm
      cases hl : o.active_sessions.lookup id with
      | none => simp only [hl] at hpm; exact Except.noConfusion hpm
      | some sOld =>
        simp only [hl] at hpm
        injection hpm with hpm
        subst hpm
        unfold storeInsert at hp
        simp only [List.mem_cons] at hp
        rcases hp with rfl | hp
        · exact sessionOK_step (process_message_core_step o.config orc sOld msg)
            (ih (id, sOld) (lookup_mem hl))
        · exact ih p (List.mem_of_mem_filter hp)
  | ended o id ho ih =>
    intro p hp
    unfold endStore at hp
    cases hpm : end_session o id with
    | error e => simp only [hpm] at hp; exact ih p hp
    | ok r =>
      simp only [hpm] at hp
      unfold end_session at hpm
      cases hl : o.active_sessions.lookup id with
      | none => simp only [hl] at hpm; exact Except.noConfusion hpm
      | some sOld =>
        simp only [hl] at hpm
        injection hpm with hpm
        subst hpm
        exact ih p (List.mem_of_mem_filter hp)

/-- Claim C4: in every orchestrator state reachable by any sequence of
`start_session` / `process_message` / `get_session_status` / `end_session`
calls, every stored session has an empty `questionsAsked` set and false
`triageComplete` / `dispatchAttempted` / `dispatchSuccessful` flags; hence
the triage completion check and the dispatch-readiness predicate are false
for every possible inbound message against such a session. -/
theorem c4_reachable_invariant (o : State) (h : Reachable o) :
    ∀ p ∈ o.active_sessions,
      p.2.questions_asked = [] ∧ p.2.triage_complete = false ∧
      p.2.dispatch_attempted = false ∧ p.2.dispatch_successful = false ∧
      (∀ m, TriageAgent.is_triage_complete (build_context p.2 m) = false) ∧
      (∀ m, DispatchAgent.ready_to_dispatch (build_context p.2 m) = false) := by
  intro p hp
  obtain ⟨h1, h2, h3, h4⟩ := reachable_storeOK o h p hp
  refine ⟨h1, h2, h3, h4, fun m => ?_, fun m => ?_⟩
  · exact is_triage_complete_no_questions _
      (show (build_context p.2 m).questions_asked = [] from h1)
  · exact ready_to_dispatch_incomplete _
      (show (build_context p.2 m).triage_complete = false from h2)

/-- Claim C4 witness: the invariant applied to the session of a freshly
started store. -/
theorem c4_witness :
    (freshSession "s1" none).questions_asked = [] ∧
    (freshSession "s1" none).triage_complete = false ∧
    TriageAgent.is_triage_complete (build_context (freshSession "s1" none) "hello") = false := by
  have h := c4_reachable_invariant (start_session {} "s1" none).2
    (Reachable.start {} "s1" none (Reachable.init {}))
    ("s1", freshSession "s1" none) (by simp [start_session, storeInsert])
  exact ⟨h.1, h.2.1, h.2.2.2.2.1 "hello"⟩

end Emergency
